import Mathlib

/-!
Shallow embedding of the process-supervisor ("daemon") and graceful-shutdown
run coordinator of lucasdecamargo/go-appservice-example.

The repository holds two snapshots of the daemon package and two snapshots of
the run command.  Where the snapshots diverge, both are embedded:

* `Daemon.stop` / `Daemon.waitForProcessTermination` follow
  `src/pkg/daemon/daemon.go` (signal failure always returned; a failed kill's
  error is returned in place of the timeout error).
* `Daemon.stopV0` / `Daemon.waitForProcessTerminationV0` follow the snapshot
  in `src/unnamed/part_000` (signal failure tolerated when the error is
  `os.ErrProcessDone`; a failed kill's error is discarded).
* `runWithSignals` / `handleShutdown` follow the run command snapshot in
  `src/unnamed/part_002` (bounded 60s shutdown wait).
* `runCmdV1` follows the run command snapshot in `src/unnamed/part_001`
  (unbounded wait after cancellation).

Go `time.Duration` values are modelled as `Nat` nanoseconds, Go errors as
`Option Err` (`none` = nil), and the OS (signal delivery, process exit timing,
kill results, `os.Executable`) as explicit environment records, so that every
definition is executable.
-/

/-- A Go `io.Writer` sink; only identity matters for the supervisor, which
never writes to the sinks itself. -/
inductive GoWriter
  | stdout
  | stderr
  | custom (n : Nat)
deriving DecidableEq, Repr

/-- Cause of a failed `Process.Signal` call: `os.ErrProcessDone`
(the process is already gone) or any other delivery error. -/
inductive SigCause
  | processDone
  | other (msg : String)
deriving DecidableEq, Repr

/-- Go `error` values produced by the daemon package, with `fmt.Errorf`
wrapping modelled structurally. -/
inductive Err
  /-- an opaque error coming from the OS or from the child's own exit -/
  | osError (msg : String)
  /-- `fmt.Errorf("executable path not found: %w", err)` -/
  | execNotFound (cause : Err)
  /-- `fmt.Errorf("failed to setup executable: %w", err)` (daemon.go `Start`) -/
  | setupFailed (cause : Err)
  /-- `fmt.Errorf("failed to send SIGTERM: %w", err)` -/
  | sigTermFailed (cause : SigCause)
  /-- `fmt.Errorf("failed to kill process: %w", err)` (daemon.go snapshot only) -/
  | killFailed (cause : Err)
  /-- `errors.New("program exit timeout")` -/
  | exitTimeout
deriving DecidableEq, Repr

/-- The signals the run command listens for (`os.Interrupt`, `syscall.SIGTERM`). -/
inductive Sig
  | sigint
  | sigterm
deriving DecidableEq, Repr

/-- `DaemonConfig` from the daemon package.  `OutWriter`/`ErrWriter` are Go
interface values, nil when `none`; `ExitTimeout` is a `time.Duration` in
nanoseconds. -/
structure DaemonConfig where
  Executable : String
  Args : List String
  EnvVars : List String
  OutWriter : Option GoWriter
  ErrWriter : Option GoWriter
  ExitTimeout : Nat
deriving DecidableEq, Repr

/-- The fields of `exec.Cmd` the daemon package touches.  `process` models
`cmd.Process`, the handle set once the child has been spawned. -/
structure Cmd where
  path : String
  args : List String
  env : Option (List String) := none
  stdout : Option GoWriter := none
  stderr : Option GoWriter := none
  process : Option Unit := none
deriving DecidableEq, Repr

/-- The `Daemon` supervisor: embedded `DaemonConfig`, the command handle
(`nil` before `Start`), and the recorded exit result `retval`.  The
`sync.WaitGroup` is modelled by the scenario environments below. -/
structure Daemon extends DaemonConfig where
  cmd : Option Cmd := none
  retval : Option Err := none
deriving DecidableEq, Repr

/-- `defaultExitTimeout = 10 * time.Second` in nanoseconds. -/
def defaultExitTimeout : Nat := 10 * 1000000000

/-- `NewDaemon(cfg *DaemonConfig) *Daemon`.  Go mutates the caller's struct
through the pointer before copying it into the new `Daemon`; the model
returns the caller's struct as it is left after the call, paired with the
constructed daemon. -/
def NewDaemon (cfg : DaemonConfig) : DaemonConfig × Daemon :=
  let cfg' := if cfg.ExitTimeout = 0 then { cfg with ExitTimeout := defaultExitTimeout } else cfg
  (cfg', { toDaemonConfig := cfg' })

deriving instance DecidableEq for Except

/-- OS-dependent inputs consumed by `Start`:  the result of
`os.Executable()`, the inherited environment `os.Environ()`, and the result
the child's `cmd.Run()` will eventually produce (a spawn failure such as a
missing binary or bad permissions surfaces here, inside the supervising
goroutine, never from `Start` itself). -/
structure StartEnv where
  osExecutable : Except String String
  osEnviron : List String
  childRunResult : Option Err
deriving DecidableEq, Repr

/-- What `Start` produces: its returned error, the daemon state after the
call, and whether the supervising goroutine was spawned. -/
structure StartResult where
  err : Option Err
  daemon : Daemon
  supervisorSpawned : Bool
deriving DecidableEq, Repr

/-- `setupExecutable`: default `Executable` to `os.Executable()` when empty;
on failure return `executable path not found: %w`. -/
def Daemon.setupExecutable (d : Daemon) (env : StartEnv) : Except Err Daemon :=
  if d.Executable = "" then
    match env.osExecutable with
    | .error m => .error (.execNotFound (.osError m))
    | .ok p => .ok { d with Executable := p }
  else
    .ok d

/-- `setupEnvironment`: when extra `EnvVars` are configured, set
`cmd.Env = append(os.Environ(), d.EnvVars...)`. -/
def Daemon.setupEnvironment (d : Daemon) (osEnviron : List String) : Daemon :=
  if 0 < d.EnvVars.length then
    { d with cmd := d.cmd.map fun c => { c with env := some (osEnviron ++ d.EnvVars) } }
  else
    d

/-- `setupIO` in the source: default the writers to the process's own
standard streams and bind them to `cmd.Stdout` / `cmd.Stderr`. -/
def Daemon.setupIOStreams (d : Daemon) : Daemon :=
  let outW := d.OutWriter.getD .stdout
  let errW := d.ErrWriter.getD .stderr
  { d with
    OutWriter := some outW
    ErrWriter := some errW
    cmd := d.cmd.map fun c => { c with stdout := some outW, stderr := some errW } }

/-- `Start(s kardianos.Service) error`, identical in both snapshots up to
inlining of the helpers: resolve the executable, build `exec.Command`,
configure environment and writers, then spawn the supervising goroutine and
return nil.  `exec.Command` never fails — `env.childRunResult` (the spawn or
exit outcome) is not consulted here. -/
def Daemon.start (d : Daemon) (env : StartEnv) : StartResult :=
  match d.setupExecutable env with
  | .error e => ⟨some (.setupFailed e), d, false⟩
  | .ok d1 =>
    let d2 := { d1 with cmd := some { path := d1.Executable, args := d1.Args } }
    let d3 := d2.setupEnvironment env.osEnviron
    let d4 := d3.setupIOStreams
    ⟨none, d4, true⟩

/-- Events of the supervising goroutine, in program order:  writing the
child's exit result to `d.retval`, invoking the host-lifecycle bridge
(`handleProcessExit`), and releasing the wait group (`wg.Done`). -/
inductive SupEvent
  | recordRetval
  | bridgeNotify
  | wgDone
deriving DecidableEq, Repr

/-- `superviseProcess` in `src/pkg/daemon/daemon.go`:
`d.retval = d.cmd.Run()` runs first, then the deferred function executes
`d.handleProcessExit(s)` followed by `d.wg.Done()`. -/
def Daemon.superviseProcess (d : Daemon) (runResult : Option Err) : Daemon × List SupEvent :=
  ({ d with retval := runResult }, [.recordRetval, .bridgeNotify, .wgDone])

/-- `superviseProcess` in `src/unnamed/part_000`: same body, but the deferred
function executes `d.wg.Done()` before `d.handleProcessExit(s)`. -/
def Daemon.superviseProcessV0 (d : Daemon) (runResult : Option Err) : Daemon × List SupEvent :=
  ({ d with retval := runResult }, [.recordRetval, .wgDone, .bridgeNotify])

/-- What `handleProcessExit` does, depending on `kardianos.Interactive()`:
stop the hosting service, re-signal the current process, or (daemon.go
snapshot only) panic when re-signalling fails. -/
inductive BridgeAction
  | serviceStop
  | selfSignalTerm
  | panicSignalFailure
  | noAction
deriving DecidableEq, Repr

/-- `handleProcessExit` in `src/pkg/daemon/daemon.go`: in service mode call
`s.Stop()`; in interactive mode find the current process and send it SIGTERM,
panicking if either step fails. -/
def handleProcessExit (interactive findOk sigOk : Bool) : BridgeAction :=
  if !interactive then .serviceStop
  else if !findOk then .panicSignalFailure
  else if !sigOk then .panicSignalFailure
  else .selfSignalTerm

/-- `handleProcessExit` in `src/unnamed/part_000`: in service mode call
`s.Stop()`; in interactive mode send SIGTERM to the current process when it
can be found, ignoring any error. -/
def handleProcessExitV0 (interactive findOk : Bool) : BridgeAction :=
  if !interactive then .serviceStop
  else if findOk then .selfSignalTerm
  else .noAction

/-- OS-dependent inputs consumed by `Stop`:  the outcome of
`cmd.Process.Signal(SIGTERM)` (`none` = delivered), the moment after the
bounded wait begins at which the supervising goroutine completes (`none` =
never, measured in nanoseconds and raced against `d.ExitTimeout`), the exit
result the goroutine recorded in `d.retval`, and the outcome of
`cmd.Process.Kill()` if a kill is issued. -/
structure StopEnv where
  signalResult : Option SigCause
  exitDelay : Option Nat
  retval : Option Err
  killResult : Option Err
deriving DecidableEq, Repr

/-- Side effects of one `Stop` call: SIGTERMs sent, kills issued, and whether
the bounded wait was entered. -/
structure StopEffects where
  signalsSent : Nat
  killsIssued : Nat
  waited : Bool
deriving DecidableEq, Repr

/-- Result of `Stop`: either a normal return carrying the Go error value and
the observed effects, or the runtime panic caused by reading `d.cmd.Process`
through a nil `d.cmd` pointer. -/
inductive StopOutcome
  | ret (err : Option Err) (fx : StopEffects)
  | nilPanic
deriving DecidableEq, Repr

/-- The race inside `waitForProcessTermination`: the `exit` channel (closed
`env.exitDelay` nanoseconds after the wait begins, never when `none`) against
`time.After(d.ExitTimeout)`. -/
def Daemon.exitsWithinTimeout (d : Daemon) (env : StopEnv) : Bool :=
  match env.exitDelay with
  | some t => t < d.ExitTimeout
  | none => false

/-- `waitForProcessTermination` in `src/pkg/daemon/daemon.go`: race the
wait-group completion against `time.After(d.ExitTimeout)`.  On completion
return `d.retval`; on timeout, if the process handle is set, kill it — and
return the kill's own error when the kill fails — otherwise return
`errors.New("program exit timeout")`.  The second component counts kills. -/
def Daemon.waitForProcessTermination (d : Daemon) (env : StopEnv) : Option Err × Nat :=
  if d.exitsWithinTimeout env then
    (env.retval, 0)
  else
    match d.cmd.bind (fun c => c.process) with
    | some _ =>
      match env.killResult with
      | some e => (some (.killFailed e), 1)
      | none => (some .exitTimeout, 1)
    | none => (some .exitTimeout, 0)

/-- `waitForProcessTermination` in `src/unnamed/part_000`: identical race,
but on timeout the kill's result is discarded and
`errors.New("program exit timeout")` is returned unconditionally. -/
def Daemon.waitForProcessTerminationV0 (d : Daemon) (env : StopEnv) : Option Err × Nat :=
  if d.exitsWithinTimeout env then
    (env.retval, 0)
  else
    match d.cmd.bind (fun c => c.process) with
    | some _ => (some .exitTimeout, 1)
    | none => (some .exitTimeout, 0)

/-- `Stop` in `src/pkg/daemon/daemon.go`: reading `d.cmd.Process` panics when
`d.cmd` is nil (Start never ran); return nil without any effect when the
process handle is unset; send SIGTERM and return
`failed to send SIGTERM: %w` on any delivery error; otherwise enter the
bounded wait. -/
def Daemon.stop (d : Daemon) (env : StopEnv) : StopOutcome :=
  match d.cmd with
  | none => .nilPanic
  | some c =>
    match c.process with
    | none => .ret none ⟨0, 0, false⟩
    | some _ =>
      match env.signalResult with
      | some cause => .ret (some (.sigTermFailed cause)) ⟨1, 0, false⟩
      | none =>
        let (r, k) := d.waitForProcessTermination env
        .ret r ⟨1, k, true⟩

/-- `Stop` in `src/unnamed/part_000`: as `Daemon.stop`, except a SIGTERM
failure satisfying `errors.Is(err, os.ErrProcessDone)` is tolerated and the
bounded wait is still entered. -/
def Daemon.stopV0 (d : Daemon) (env : StopEnv) : StopOutcome :=
  match d.cmd with
  | none => .nilPanic
  | some c =>
    match c.process with
    | none => .ret none ⟨0, 0, false⟩
    | some _ =>
      match env.signalResult with
      | some (.other m) => .ret (some (.sigTermFailed (.other m))) ⟨1, 0, false⟩
      | some .processDone =>
        let (r, k) := d.waitForProcessTerminationV0 env
        .ret r ⟨1, k, true⟩
      | none =>
        let (r, k) := d.waitForProcessTerminationV0 env
        .ret r ⟨1, k, true⟩

/-- `shutdownTimeout = 60 * time.Second` in the run command snapshot of
`src/unnamed/part_002`, in nanoseconds. -/
def shutdownTimeout : Nat := 60 * 1000000000

/-- Outcome of the run command's `RunE`:  the unit of work's result returned
directly (no signal arrived), `fmt.Errorf("application error: %w", runErr)`,
`fmt.Errorf("shutdown by signal: %v", sig)`, or
`fmt.Errorf("shutdown timeout exceeded after %v", shutdownTimeout)`. -/
inductive RunOutcome
  | direct (err : Option Err)
  | appError (e : Err)
  | signalShutdown (sig : Sig)
  | timeoutExceeded
deriving DecidableEq, Repr

/-- The race inside `handleShutdown`: `shutdownDone` (closed `stopDelay`
nanoseconds after cancellation, never when `none`) against
`time.After(shutdownTimeout)`. -/
def stopsWithinDeadline (stopDelay : Option Nat) : Bool :=
  match stopDelay with
  | some t => t < shutdownTimeout
  | none => false

/-- `handleShutdown` in `src/unnamed/part_002`: after `cancel()`, race the
wait-group completion (`stopDelay` nanoseconds after the cancellation;
`none` = the unit never stops) against `time.After(shutdownTimeout)`.  On
completion in time it inspects `runErr` — but `runErr` here is the value of
the caller's variable at the moment `handleShutdown` was called (Go passes it
by value), not the value the unit of work later wrote. -/
def handleShutdown (sig : Sig) (runErr : Option Err) (stopDelay : Option Nat) : RunOutcome :=
  if stopsWithinDeadline stopDelay then
    match runErr with
    | some e => .appError e
    | none => .signalShutdown sig
  else
    .timeoutExceeded

/-- Scenario for one invocation of the run coordinator:  whether a signal is
selected before the unit's completion, which signal, the snapshot of `runErr`
visible at that moment, how long after cancellation the unit stops
(`none` = never), and the error value the unit of work finally returns. -/
structure RunEnv where
  sigFirst : Bool
  sig : Sig
  runErrAtSignal : Option Err
  stopDelay : Option Nat
  unitFinalErr : Option Err
deriving DecidableEq, Repr

/-- `runWithSignals` in `src/unnamed/part_002`: run the unit of work on a
goroutine and select between its completion and a signal.  On completion,
return `runErr`; on a signal, call `handleShutdown(cancel, &wg, sig, runErr)`
— the fourth argument is evaluated at the call site, so it is the snapshot
`env.runErrAtSignal`, while `env.unitFinalErr` (what the unit eventually
returned) is never consulted on this path. -/
def runWithSignals (env : RunEnv) : RunOutcome :=
  if env.sigFirst then
    handleShutdown env.sig env.runErrAtSignal env.stopDelay
  else
    .direct env.unitFinalErr

/-- Scenario for the run command snapshot in `src/unnamed/part_001`. -/
structure RunEnvV1 where
  sigFirst : Bool
  stopDelay : Option Nat
  unitFinalErr : Option Err
deriving DecidableEq, Repr

/-- The `RunE` closure of `NewRunCmd` in `src/unnamed/part_001`: the goroutine
assigns the named return value `err`, and after a signal the closure calls
`cancel()` then `wg.Wait()` with no timer — if the unit never stops the call
never returns, modelled as `none`. -/
def runCmdV1 (env : RunEnvV1) : Option (Option Err) :=
  if env.sigFirst then
    match env.stopDelay with
    | some _ => some env.unitFinalErr
    | none => none
  else
    some env.unitFinalErr

/-! ### Concrete fixtures used by counterexamples and witnesses -/

/-- A daemon as left by a successful `Start` whose child has been spawned:
the command exists and its process handle is set. -/
def dStarted : Daemon :=
  { Executable := "/usr/local/bin/svcapp"
    Args := ["run"]
    EnvVars := []
    OutWriter := some .stdout
    ErrWriter := some .stderr
    ExitTimeout := defaultExitTimeout
    cmd := some { path := "/usr/local/bin/svcapp", args := ["run"], process := some () } }

/-- A daemon whose command was created but whose child was not yet spawned
(the supervising goroutine has not reached `cmd.Run` yet). -/
def dCreatedOnly : Daemon :=
  { Executable := "/usr/local/bin/svcapp"
    Args := ["run"]
    EnvVars := []
    OutWriter := some .stdout
    ErrWriter := some .stderr
    ExitTimeout := defaultExitTimeout
    cmd := some { path := "/usr/local/bin/svcapp", args := ["run"] } }

/-- Stop scenario: the signal is delivered, the grace period elapses (the
child never completes the wait), and the subsequent kill fails. -/
def envTimeoutKillFails : StopEnv :=
  ⟨none, none, none, some (.osError "os: process already finished")⟩

/-- Stop scenario: SIGTERM delivery reports `os.ErrProcessDone`, and the
supervising goroutine completes 50ms into the wait with a non-zero exit. -/
def envProcessDoneExit : StopEnv :=
  ⟨some .processDone, some 50000000, some (.osError "exit status 1"), none⟩

/-! ### Claims -/

/-- Claim C1 (counterexample): on a daemon on which `Start` was never called,
`d.cmd` is still nil, so `Stop` reads `d.cmd.Process` through a nil pointer
and panics — in both snapshots — rather than being a no-op returning
success. -/
theorem stop_on_unstarted_daemon_panics :
    Daemon.stop (NewDaemon ⟨"", ["run"], [], none, none, 0⟩).2 ⟨none, none, none, none⟩ =
      .nilPanic ∧
    Daemon.stopV0 (NewDaemon ⟨"", ["run"], [], none, none, 0⟩).2 ⟨none, none, none, none⟩ =
      .nilPanic ∧
    StopOutcome.nilPanic ≠ .ret none ⟨0, 0, false⟩ := by
  decide

/-- Claim C1 (amended): when a command exists but its process handle is
unset, `Stop` is a no-op returning nil in both snapshots — no signal is sent,
no wait is entered, no kill is issued.  When `Start` never ran at all, `Stop`
instead panics on the nil command, as the counterexample shows. -/
theorem stop_noop_when_process_handle_unset
    (d : Daemon) (c : Cmd) (env : StopEnv)
    (hc : d.cmd = some c) (hp : c.process = none) :
    d.stop env = .ret none ⟨0, 0, false⟩ ∧ d.stopV0 env = .ret none ⟨0, 0, false⟩ := by
  simp [Daemon.stop, Daemon.stopV0, hc, hp]

/-- Witness for the amended C1 statement at a concrete daemon. -/
theorem stop_noop_when_process_handle_unset_witness :
    Daemon.stop dCreatedOnly ⟨none, none, none, none⟩ = .ret none ⟨0, 0, false⟩ ∧
    Daemon.stopV0 dCreatedOnly ⟨none, none, none, none⟩ = .ret none ⟨0, 0, false⟩ :=
  stop_noop_when_process_handle_unset dCreatedOnly _ _ rfl rfl

/-- Claim C2 (counterexample): in the `src/pkg/daemon/daemon.go` snapshot,
when the grace period elapses and the forced kill itself fails, `Stop`
returns the kill's wrapped error instead of the timeout error — the kill's
failure is surfaced, not discarded. -/
theorem kill_failure_surfaced_in_daemon_go :
    Daemon.stop dStarted envTimeoutKillFails =
      .ret (some (.killFailed (.osError "os: process already finished"))) ⟨1, 1, true⟩ ∧
    Err.killFailed (.osError "os: process already finished") ≠ Err.exitTimeout := by
  decide

/-- Claim C2 (amended): on a started process whose grace period elapses,
both snapshots issue exactly one forced kill; the `part_000` snapshot then
returns the timeout error regardless of the kill's outcome (the kill failure
is discarded), while the `daemon.go` snapshot returns the timeout error only
when the kill succeeds and surfaces the kill's own error when it fails. -/
theorem forced_kill_outcome_on_grace_timeout
    (d : Daemon) (c : Cmd) (env : StopEnv)
    (hc : d.cmd = some c) (hp : c.process = some ())
    (hsig : env.signalResult = none)
    (hlate : d.exitsWithinTimeout env = false) :
    d.stopV0 env = .ret (some .exitTimeout) ⟨1, 1, true⟩ ∧
    (env.killResult = none → d.stop env = .ret (some .exitTimeout) ⟨1, 1, true⟩) ∧
    (∀ e, env.killResult = some e → d.stop env = .ret (some (.killFailed e)) ⟨1, 1, true⟩) := by
  refine ⟨?_, ?_, ?_⟩
  · simp [Daemon.stopV0, Daemon.waitForProcessTerminationV0, hc, hp, hsig, hlate]
  · intro hk
    simp [Daemon.stop, Daemon.waitForProcessTermination, hc, hp, hsig, hlate, hk]
  · intro e hk
    simp [Daemon.stop, Daemon.waitForProcessTermination, hc, hp, hsig, hlate, hk]

/-- Witness for the amended C2 statement: grace period elapsed, kill fails. -/
theorem forced_kill_outcome_on_grace_timeout_witness :
    Daemon.stopV0 dStarted envTimeoutKillFails = .ret (some .exitTimeout) ⟨1, 1, true⟩ ∧
    Daemon.stop dStarted envTimeoutKillFails =
      .ret (some (.killFailed (.osError "os: process already finished"))) ⟨1, 1, true⟩ := by
  have h := forced_kill_outcome_on_grace_timeout dStarted
    { path := "/usr/local/bin/svcapp", args := ["run"], process := some () }
    envTimeoutKillFails rfl rfl rfl (by decide)
  exact ⟨h.1, h.2.2 _ rfl⟩

/-- Claim C3 (counterexample): in the `src/pkg/daemon/daemon.go` snapshot a
SIGTERM failure with `os.ErrProcessDone` makes `Stop` return the signal error
immediately — the bounded wait is never entered (`waited = false`) — whereas
the `part_000` snapshot proceeds to the wait and returns the child's result. -/
theorem signal_process_done_rejected_in_daemon_go :
    Daemon.stop dStarted envProcessDoneExit =
      .ret (some (.sigTermFailed .processDone)) ⟨1, 0, false⟩ ∧
    Daemon.stopV0 dStarted envProcessDoneExit =
      .ret (some (.osError "exit status 1")) ⟨1, 0, true⟩ := by
  decide

/-- Claim C3 (amended): on a started process, the `part_000` snapshot
tolerates a SIGTERM failure carrying `os.ErrProcessDone` and still enters the
bounded wait, returning `SignalError` immediately only for other causes;
the `daemon.go` snapshot returns `SignalError` immediately for every failed
delivery, `os.ErrProcessDone` included. -/
theorem signal_failure_handling_per_snapshot
    (d : Daemon) (c : Cmd) (env : StopEnv)
    (hc : d.cmd = some c) (hp : c.process = some ()) :
    (env.signalResult = some .processDone →
      d.stopV0 env =
        .ret (d.waitForProcessTerminationV0 env).1 ⟨1, (d.waitForProcessTerminationV0 env).2, true⟩) ∧
    (∀ m, env.signalResult = some (.other m) →
      d.stopV0 env = .ret (some (.sigTermFailed (.other m))) ⟨1, 0, false⟩) ∧
    (∀ cause, env.signalResult = some cause →
      d.stop env = .ret (some (.sigTermFailed cause)) ⟨1, 0, false⟩) := by
  refine ⟨?_, ?_, ?_⟩
  · intro hs
    simp [Daemon.stopV0, hc, hp, hs]
  · intro m hs
    simp [Daemon.stopV0, hc, hp, hs]
  · intro cause hs
    simp [Daemon.stop, hc, hp, hs]

/-- Witness for the amended C3 statement: `os.ErrProcessDone` during SIGTERM
delivery, child exits 50ms into the wait with a non-zero status. -/
theorem signal_failure_handling_per_snapshot_witness :
    Daemon.stopV0 dStarted envProcessDoneExit =
      .ret (some (.osError "exit status 1")) ⟨1, 0, true⟩ := by
  have h := signal_failure_handling_per_snapshot dStarted
    { path := "/usr/local/bin/svcapp", args := ["run"], process := some () }
    envProcessDoneExit rfl rfl
  exact (h.1 rfl).trans (by decide)

/-- A daemon configured with an explicit executable path that does not exist
on the system. -/
def dNoSuchBin : Daemon :=
  { Executable := "/nonexistent/bin"
    Args := ["run"]
    EnvVars := []
    OutWriter := none
    ErrWriter := none
    ExitTimeout := defaultExitTimeout }

/-- Start scenario in which spawning the child would fail: `cmd.Run` will
report the missing binary, but only inside the supervising goroutine. -/
def envSpawnFails : StartEnv :=
  ⟨.ok "/proc/self/exe", ["PATH=/usr/bin"],
   some (.osError "fork/exec /nonexistent/bin: no such file or directory")⟩

/-- Claim C4 (counterexample): when process creation would fail (missing
binary), `Start` still returns nil and spawns the supervising goroutine — no
`SetupError` is produced; the spawn failure is only recorded later as the
supervised exit result. -/
theorem start_succeeds_despite_spawn_failure :
    (dNoSuchBin.start envSpawnFails).err = none ∧
    (dNoSuchBin.start envSpawnFails).supervisorSpawned = true ∧
    ((dNoSuchBin.start envSpawnFails).daemon.superviseProcess
        envSpawnFails.childRunResult).1.retval = envSpawnFails.childRunResult := by
  decide

/-- Claim C4 (amended): `Start` fails — with the wrapped setup error — only
when the configured path is empty and `os.Executable()` fails; whenever the
path is non-empty, or resolution succeeds, `Start` returns nil and spawns the
supervisor without blocking, regardless of whether process creation will
fail. -/
theorem start_error_only_on_executable_resolution
    (d : Daemon) (env : StartEnv) :
    (∀ m, d.Executable = "" → env.osExecutable = .error m →
      d.start env = ⟨some (.setupFailed (.execNotFound (.osError m))), d, false⟩) ∧
    (d.Executable ≠ "" →
      (d.start env).err = none ∧ (d.start env).supervisorSpawned = true) ∧
    (∀ p, env.osExecutable = .ok p →
      (d.start env).err = none ∧ (d.start env).supervisorSpawned = true) := by
  refine ⟨?_, ?_, ?_⟩
  · intro m he ho
    simp [Daemon.start, Daemon.setupExecutable, he, ho]
  · intro he
    simp [Daemon.start, Daemon.setupExecutable, he]
  · intro p hp
    by_cases he : d.Executable = ""
    · simp [Daemon.start, Daemon.setupExecutable, he, hp]
    · simp [Daemon.start, Daemon.setupExecutable, he]

/-- Witness for the amended C4 statement: empty path with failing resolution
yields the wrapped setup error; an explicit path always starts. -/
theorem start_error_only_on_executable_resolution_witness :
    Daemon.start
        { Executable := "", Args := ["run"], EnvVars := [], OutWriter := none,
          ErrWriter := none, ExitTimeout := defaultExitTimeout }
        ⟨.error "readlink /proc/self/exe: permission denied", [], none⟩ =
      ⟨some (.setupFailed (.execNotFound (.osError "readlink /proc/self/exe: permission denied"))),
       { Executable := "", Args := ["run"], EnvVars := [], OutWriter := none,
         ErrWriter := none, ExitTimeout := defaultExitTimeout },
       false⟩ ∧
    (dNoSuchBin.start envSpawnFails).err = none := by
  have h1 := start_error_only_on_executable_resolution
    { Executable := "", Args := ["run"], EnvVars := [], OutWriter := none,
      ErrWriter := none, ExitTimeout := defaultExitTimeout }
    ⟨.error "readlink /proc/self/exe: permission denied", [], none⟩
  have h2 := start_error_only_on_executable_resolution dNoSuchBin envSpawnFails
  exact ⟨h1.1 _ rfl rfl, (h2.2.1 (by decide)).1⟩

/-- Claim C5 (code bug): the unit of work finishes 10ms after the trigger and
within the 60s deadline, returning its own error — yet `runWithSignals`
reports only the generic signal shutdown, because `handleShutdown` received
the value of `runErr` captured at the instant the signal was selected (still
nil) rather than the value the goroutine wrote afterwards.  The sibling
snapshot `runCmdV1` (which reads the named return value after `wg.Wait`)
does surface the unit's own error, confirming the intent. -/
theorem post_signal_unit_error_discarded :
    runWithSignals ⟨true, .sigterm, none, some 10000000, some (.osError "some error occurred")⟩ =
      .signalShutdown .sigterm ∧
    runWithSignals ⟨true, .sigterm, none, some 10000000, some (.osError "some error occurred")⟩ ≠
      .appError (.osError "some error occurred") ∧
    runWithSignals ⟨true, .sigterm, none, some 10000000, some (.osError "some error occurred")⟩ ≠
      .timeoutExceeded ∧
    runCmdV1 ⟨true, some 10000000, some (.osError "some error occurred")⟩ =
      some (some (.osError "some error occurred")) := by
  decide

/-- Claim C6 (counterexample): in the `src/unnamed/part_001` snapshot of the
run command there is no shutdown deadline at all — after the trigger the
closure blocks in `wg.Wait()`; with a unit that never stops the call never
returns (`none`), and no shutdown-timeout failure is ever produced. -/
theorem run_cmd_v1_waits_unboundedly :
    runCmdV1 ⟨true, none, none⟩ = none := by
  decide

/-- Claim C6 (amended): in the `part_002` snapshot the post-cancellation wait
is bounded: the deadline is exactly 60 seconds, a unit that has not stopped
when it elapses yields the shutdown-timeout failure, and a unit that stops in
time never yields it.  In the `part_001` snapshot the wait is unbounded, as
the counterexample shows. -/
theorem bounded_shutdown_wait_with_deadline
    (env : RunEnv) (hsig : env.sigFirst = true) :
    (stopsWithinDeadline env.stopDelay = false → runWithSignals env = .timeoutExceeded) ∧
    (stopsWithinDeadline env.stopDelay = true → runWithSignals env ≠ .timeoutExceeded) ∧
    shutdownTimeout = 60 * 1000000000 := by
  refine ⟨?_, ?_, rfl⟩
  · intro hs
    simp [runWithSignals, handleShutdown, hsig, hs]
  · intro hs
    cases hr : env.runErrAtSignal <;>
      simp [runWithSignals, handleShutdown, hsig, hs, hr]

/-- Witness for the amended C6 statement: signal first, unit never stops. -/
theorem bounded_shutdown_wait_with_deadline_witness :
    runWithSignals ⟨true, .sigint, none, none, none⟩ = .timeoutExceeded ∧
    shutdownTimeout = 60 * 1000000000 := by
  have h := bounded_shutdown_wait_with_deadline ⟨true, .sigint, none, none, none⟩ rfl
  exact ⟨h.1 rfl, h.2.2⟩

/-- Claim C7: for every grace period and every child that completes within it
after SIGTERM was delivered, `Stop` returns exactly the recorded exit result
(nil or the child's own error) and issues no kill — in both snapshots. -/
theorem stop_returns_child_result_within_grace
    (d : Daemon) (c : Cmd) (env : StopEnv) (t : Nat)
    (hc : d.cmd = some c) (hp : c.process = some ())
    (hsig : env.signalResult = none)
    (ht : env.exitDelay = some t) (hlt : t < d.ExitTimeout) :
    d.stop env = .ret env.retval ⟨1, 0, true⟩ ∧
    d.stopV0 env = .ret env.retval ⟨1, 0, true⟩ := by
  have hw : d.exitsWithinTimeout env = true := by
    simp [Daemon.exitsWithinTimeout, ht, hlt]
  constructor
  · simp [Daemon.stop, Daemon.waitForProcessTermination, hc, hp, hsig, hw]
  · simp [Daemon.stopV0, Daemon.waitForProcessTerminationV0, hc, hp, hsig, hw]

/-- Witness for C7: a clean exit (nil) and a non-zero exit, both 50ms into a
10s grace period. -/
theorem stop_returns_child_result_within_grace_witness :
    Daemon.stop dStarted ⟨none, some 50000000, none, none⟩ = .ret none ⟨1, 0, true⟩ ∧
    Daemon.stopV0 dStarted ⟨none, some 50000000, some (.osError "exit status 1"), none⟩ =
      .ret (some (.osError "exit status 1")) ⟨1, 0, true⟩ :=
  ⟨(stop_returns_child_result_within_grace dStarted
      { path := "/usr/local/bin/svcapp", args := ["run"], process := some () }
      ⟨none, some 50000000, none, none⟩ 50000000 rfl rfl rfl rfl (by decide)).1,
   (stop_returns_child_result_within_grace dStarted
      { path := "/usr/local/bin/svcapp", args := ["run"], process := some () }
      ⟨none, some 50000000, some (.osError "exit status 1"), none⟩ 50000000 rfl rfl rfl rfl
      (by decide)).2⟩

/-- In a supervising-goroutine trace, the exit result is written strictly
before the host-lifecycle bridge is invoked. -/
def recordedBeforeNotify (tr : List SupEvent) : Prop :=
  tr.indexOf SupEvent.recordRetval < tr.indexOf SupEvent.bridgeNotify

/-- Claim C8: in every execution of the supervising goroutine — in both
snapshots and for every exit result — `d.retval` holds the child's result,
and the write to it precedes the bridge invocation in the goroutine's event
order, so the host never observes the exit before the result is readable. -/
theorem retval_recorded_before_bridge_notify
    (d : Daemon) (r : Option Err) :
    (d.superviseProcess r).1.retval = r ∧
    recordedBeforeNotify (d.superviseProcess r).2 ∧
    (d.superviseProcessV0 r).1.retval = r ∧
    recordedBeforeNotify (d.superviseProcessV0 r).2 := by
  refine ⟨rfl, ?_, rfl, ?_⟩ <;>
  · unfold recordedBeforeNotify
    simp only [Daemon.superviseProcess, Daemon.superviseProcessV0]
    decide

/-- Claim C9: the host-lifecycle bridge hook runs exactly once per
supervision session, whatever exit result the child produced — a crash, an
exit code, or a Stop-initiated SIGTERM or kill all reach the same deferred
`handleProcessExit` call — in both snapshots. -/
theorem bridge_notified_exactly_once
    (d : Daemon) (r : Option Err) :
    (d.superviseProcess r).2.count SupEvent.bridgeNotify = 1 ∧
    (d.superviseProcessV0 r).2.count SupEvent.bridgeNotify = 1 := by
  constructor <;> rfl

/-- Claim C10: `NewDaemon` writes through the caller's pointer — a zero
`ExitTimeout` is replaced by the 10-second default in the caller's own struct
before it is copied, a nonzero one leaves the struct untouched — and the
daemon embeds exactly the struct as mutated. -/
theorem newDaemon_mutates_caller_config (cfg : DaemonConfig) :
    (cfg.ExitTimeout = 0 →
      (NewDaemon cfg).1 = { cfg with ExitTimeout := 10 * 1000000000 } ∧
      (NewDaemon cfg).2.toDaemonConfig = { cfg with ExitTimeout := 10 * 1000000000 }) ∧
    (cfg.ExitTimeout ≠ 0 →
      (NewDaemon cfg).1 = cfg ∧ (NewDaemon cfg).2.toDaemonConfig = cfg) := by
  constructor
  · intro h
    constructor <;> simp [NewDaemon, defaultExitTimeout, h]
  · intro h
    constructor <;> simp [NewDaemon, h]

/-- Witness for C10: a zero timeout is rewritten to 10s in the caller's
struct; a 5s timeout is left unchanged. -/
theorem newDaemon_mutates_caller_config_witness :
    (NewDaemon ⟨"", ["run"], [], none, none, 0⟩).1 =
      ⟨"", ["run"], [], none, none, 10 * 1000000000⟩ ∧
    (NewDaemon ⟨"", ["run"], [], none, none, 5000000000⟩).1 =
      ⟨"", ["run"], [], none, none, 5000000000⟩ := by
  have h1 := newDaemon_mutates_caller_config ⟨"", ["run"], [], none, none, 0⟩
  have h2 := newDaemon_mutates_caller_config ⟨"", ["run"], [], none, none, 5000000000⟩
  exact ⟨(h1.1 rfl).1, (h2.2 (by decide)).1⟩
